import Mathlib

/-!
Verification of the passport text parser and validator
(`PassportParser` module: `validateIIN`, `extractFromIIN`, `parseMRZ`,
`parseTD1`, `parseTD3`, `formatMRZDate`, `parseDates`,
`parsePassportNumber`, `parseIIN`, `parseGender`, `parseAuthority`,
`parse`).

Strings are modelled as Lean `String`s (lists of characters); the
JavaScript regular-expression scans are modelled by explicit
leftmost-match scanners that advance one position at a time exactly as
the backtracking regex engine does on these patterns.
-/

/-! Section: Character classes and small JavaScript string primitives -/

/-- Numeric value of a decimal digit character (JS `parseInt` on one digit). -/
def digitVal (c : Char) : Nat := c.toNat - 48

/-- Membership in the regex class `\\d` = `[0-9]`. -/
def isDigitCh (c : Char) : Bool := 48 ≤ c.toNat && c.toNat ≤ 57

/-- Membership in the regex class `[A-Z]`. -/
def isUpperAZ (c : Char) : Bool := 65 ≤ c.toNat && c.toNat ≤ 90

/-- Membership in the regex class `\w` = `[A-Za-z0-9_]`, used by `\b`. -/
def isWordChar (c : Char) : Bool :=
  (48 ≤ c.toNat && c.toNat ≤ 57) || (65 ≤ c.toNat && c.toNat ≤ 90) ||
  (97 ≤ c.toNat && c.toNat ≤ 122) || c.toNat == 95

/-- Whitespace as recognised by JS `String.prototype.trim` (common cases). -/
def jsIsWS (c : Char) : Bool :=
  c == ' ' || c == '\t' || c == '\n' || c == '\r' ||
  c == '\x0b' || c == '\x0c' || c == '\xa0'

/-- JS `String.prototype.trim`. -/
def jsTrim (l : List Char) : List Char :=
  ((l.dropWhile jsIsWS).reverse.dropWhile jsIsWS).reverse

/-- JS `String.prototype.split` with a single-character separator;
`split` of the empty string yields `[""]`. -/
def splitChar (sep : Char) : List Char → List (List Char)
  | [] => [[]]
  | c :: rest =>
    if c = sep then [] :: splitChar sep rest
    else
      match splitChar sep rest with
      | h :: t => (c :: h) :: t
      | [] => [[c]]

/-- Value of a list of decimal digit characters. -/
def digitsToNat (ds : List Char) : Nat := ds.foldl (fun a c => 10 * a + digitVal c) 0

/-- Model of JS `parseInt` (base 10) restricted to nonnegative inputs: skip
leading whitespace, read a maximal run of decimal digits; `none` models `NaN`. -/
def jsParseIntNat (l : List Char) : Option Nat :=
  let ds := (l.dropWhile jsIsWS).takeWhile isDigitCh
  if ds.isEmpty then none else some (digitsToNat ds)

/-- JS `String.prototype.includes`: `jsIncludes needle hay`. -/
def jsIncludes (needle : List Char) : List Char → Bool
  | [] => needle.isPrefixOf []
  | c :: rest => needle.isPrefixOf (c :: rest) || jsIncludes needle rest

/-- The `\b` condition between the current position and the rest of the input:
true at end of input or before a non-word character. -/
def wordBoundaryAt : List Char → Bool
  | [] => true
  | d :: _ => !isWordChar d

/-! Section: Regex scanners (leftmost match, as the JS engine computes them) -/

/-- Worker for the global scan of `/\b[A-Z]{3,}\b/g` (the `engWordRegex` of
the name fallback).  `cur` is the reversed uppercase run currently being
read (empty when no run is open); a run can only open after a non-word
character (`prevW = false`) and is emitted when it is at least three letters
long and ends at a word boundary. -/
def wordsAux (cur : List Char) (prevW : Bool) : List Char → List (List Char)
  | [] => if 3 ≤ cur.length then [cur.reverse] else []
  | c :: rest =>
    if cur.isEmpty then
      if !prevW && isUpperAZ c then wordsAux [c] true rest
      else wordsAux [] (isWordChar c) rest
    else
      if isUpperAZ c then wordsAux (c :: cur) true rest
      else if 3 ≤ cur.length && !isWordChar c then
        cur.reverse :: wordsAux [] (isWordChar c) rest
      else wordsAux [] (isWordChar c) rest

/-- Global scan for `/\b[A-Z]{3,}\b/g`: every maximal run of at least three
uppercase letters delimited by word boundaries, in order. -/
def scanWords (l : List Char) : List (List Char) := wordsAux [] false l

/-- Leftmost match of `/\b(\d{12})\b/` (`parseIIN`'s pattern). -/
def findIIN (prevW : Bool) : List Char → Option (List Char)
  | [] => none
  | c :: rest =>
    if !prevW && isDigitCh c then
      let ds := (c :: rest).takeWhile isDigitCh
      if 12 ≤ ds.length && wordBoundaryAt ((c :: rest).drop 12) then some (ds.take 12)
      else findIIN (isWordChar c) rest
    else findIIN (isWordChar c) rest

/-- Leftmost match of `/N(\d{8,9})/` (`parsePassportNumber`'s pattern),
returning the digit group. -/
def findPassportNum : List Char → Option (List Char)
  | [] => none
  | c :: rest =>
    if c = 'N' then
      let ds := (rest.takeWhile isDigitCh).take 9
      if 8 ≤ ds.length then some ds else findPassportNum rest
    else findPassportNum rest

/-- Test of `/\bX\b/` for a single word character `X` (used for `\bF\b` and
`\bM\b` in `parseGender`). -/
def hasWordToken (target : Char) (prevW : Bool) : List Char → Bool
  | [] => false
  | c :: rest =>
    (!prevW && c == target && wordBoundaryAt rest) || hasWordToken target (isWordChar c) rest

/-- Does `/\d{2}\.\d{2}\.\d{4}/` match at the current position? -/
def dateAt : List Char → Bool
  | a :: b :: c :: d :: e :: f :: g :: h :: i :: j :: _ =>
    isDigitCh a && isDigitCh b && c == '.' && isDigitCh d && isDigitCh e && f == '.' &&
    isDigitCh g && isDigitCh h && isDigitCh i && isDigitCh j
  | _ => false

/-- Worker for the global scan of `/\d{2}\.\d{2}\.\d{4}/g`: on a match the
ten matched characters are emitted and the scan resumes after them (`skip`
counts positions still to pass over); otherwise it advances one position. -/
def datesAux (skip : Nat) : List Char → List (List Char)
  | [] => []
  | c :: rest =>
    match skip with
    | n + 1 => datesAux n rest
    | 0 =>
      if dateAt (c :: rest) then (c :: rest).take 10 :: datesAux 9 rest
      else datesAux 0 rest

/-- Global scan for `/\d{2}\.\d{2}\.\d{4}/g` (`parseDates`'s pattern),
collecting the ten-character matches in order. -/
def scanDates (l : List Char) : List (List Char) := datesAux 0 l

/-- Leftmost match of `/([A-Z]+)<<(.+)/` on a single line (the `nameMatch`
of `parseTD1`/`parseTD3`): returns the two groups.  Group 2 (`.+`, greedy)
is everything after the first `<<` that follows a maximal uppercase run. -/
def findNameMatch : List Char → Option (List Char × List Char)
  | [] => none
  | c :: rest =>
    if isUpperAZ c then
      match rest.dropWhile isUpperAZ with
      | '<' :: '<' :: d :: tl => some (c :: rest.takeWhile isUpperAZ, d :: tl)
      | _ => findNameMatch rest
    else findNameMatch rest

/-- The group `[A-Z]+(?:<[A-Z]+)*` of the loose MRZ name pattern, matched
greedily from the current position: consumes uppercase letters and any
single `<` separator that is followed by a further uppercase letter. -/
def looseGroup : List Char → List Char
  | [] => []
  | c :: rest =>
    if isUpperAZ c then c :: looseGroup rest
    else if c = '<' then
      match rest with
      | d :: tl => if isUpperAZ d then c :: d :: looseGroup tl else []
      | [] => []
    else []

/-- Leftmost match of `/([A-Z]+)<<([A-Z]+(?:<[A-Z]+)*)/` on the whole text
(the loose MRZ fallback), returning the two groups. -/
def findLoose : List Char → Option (List Char × List Char)
  | [] => none
  | c :: rest =>
    if isUpperAZ c then
      match rest.dropWhile isUpperAZ with
      | '<' :: '<' :: tl =>
        if (tl.takeWhile isUpperAZ).isEmpty then findLoose rest
        else some (c :: rest.takeWhile isUpperAZ, looseGroup tl)
      | _ => findLoose rest
    else findLoose rest

/-- Worker for `replace(/<+/g, ' ')`: `inRun` records whether the previous
character belonged to a run of `<` (whose single replacement space has
already been emitted). -/
def collapseAux (inRun : Bool) : List Char → List Char
  | [] => []
  | c :: rest =>
    if c = '<' then
      if inRun then collapseAux true rest else ' ' :: collapseAux true rest
    else c :: collapseAux false rest

/-- JS `replace(/<+/g, ' ')`: collapse each run of `<` to a single space. -/
def collapseFiller (l : List Char) : List Char := collapseAux false l

/-- JS `replace(/<+$/, '')`: strip a trailing run of `<`. -/
def stripTrailingLt (l : List Char) : List Char :=
  (l.reverse.dropWhile (· == '<')).reverse

/-! Section: IIN validation and derivation (`validateIIN`, `extractFromIIN`) -/

def weights1 : List Nat := [1, 2, 3, 4, 5, 6, 7, 8, 9, 10, 11]

def weights2 : List Nat := [3, 4, 5, 6, 7, 8, 9, 10, 11, 1, 2]

/-- The loop `for i in 0..10: sum += parseInt(iin[i]) * weights[i]`. -/
def weightedSum (l : List Char) (ws : List Nat) : Nat :=
  (List.zipWith (fun c w => digitVal c * w) (l.take 11) ws).sum

/-- Source `validateIIN(iin)`: the guard `!iin || iin.length !== 12 || !/^\d{12}$/.test(iin)`
followed by the two-stage weighted checksum. -/
def validateIIN (iin : String) : Bool :=
  if iin.data.length ≠ 12 then false
  else if !(iin.data.all isDigitCh) then false
  else
    let checkDigit := weightedSum iin.data weights1 % 11
    let finalCheck := if checkDigit = 10 then weightedSum iin.data weights2 % 11 else checkDigit
    finalCheck == digitVal (iin.data.getD 11 '0')

structure IINInfo where
  gender : String
  birthDate : String
deriving Repr, DecidableEq

/-- Source `extractFromIIN(iin)`: checksum gate, then the century-digit switch. -/
def extractFromIIN (iin : String) : Option IINInfo :=
  if !(validateIIN iin) then none
  else
    let l := iin.data
    let century := digitVal (l.getD 6 '0')
    let yearPre : Option String :=
      if century = 1 ∨ century = 2 then some "18"
      else if century = 3 ∨ century = 4 then some "19"
      else if century = 5 ∨ century = 6 then some "20"
      else none
    match yearPre with
    | none => none
    | some pre =>
      let year := pre ++ String.mk (l.take 2)
      let month := String.mk ((l.drop 2).take 2)
      let day := String.mk ((l.drop 4).take 2)
      let gender := if century % 2 = 1 then "1" else "0"
      some { gender := gender, birthDate := day ++ "." ++ month ++ "." ++ year }

/-! Section: MRZ decoding (`formatMRZDate`, `parseTD1`, `parseTD3`, `parseMRZ`) -/

structure MRZResult where
  surname : String
  name : String
  number : String
  nationality : String
  birthDate : String
  validDate : String
  gender : String
deriving Repr, DecidableEq

/-- Source `formatMRZDate(mrzDate)`: YYMMDD to DD.MM.YYYY with the
`year > 50 ? 1900 + year : 2000 + year` pivot; `parseInt` yielding `NaN`
renders as the string `NaN`. -/
def formatMRZDate (mrzDate : String) : String :=
  if mrzDate.data.length ≠ 6 then ""
  else
    let l := mrzDate.data
    let month := String.mk ((l.drop 2).take 2)
    let day := String.mk ((l.drop 4).take 2)
    match jsParseIntNat (l.take 2) with
    | some year =>
      let fullYear := if 50 < year then 1900 + year else 2000 + year
      day ++ "." ++ month ++ "." ++ toString fullYear
    | none => day ++ "." ++ month ++ ".NaN"

/-- Source `parseTD1(line1, line2)`: fixed-column decode of the ID-card layout.
No statement of the body can throw, so the `try/catch` is dead. -/
def parseTD1 (line1 line2 : List Char) : MRZResult :=
  let nameMatch := findNameMatch (line1.drop 5)
  let surname := match nameMatch with
    | some (g1, _) => String.mk (g1.filter (fun c => !(c == '<')))
    | none => ""
  let nm := match nameMatch with
    | some (_, g2) => String.mk (jsTrim (collapseFiller g2))
    | none => ""
  let number := String.mk (stripTrailingLt (line2.take 9))
  let birthDateRaw := String.mk ((line2.drop 13).take 6)
  let gender := if (line2.drop 20).take 1 = ['M'] then "1" else "0"
  let validDateRaw := String.mk ((line2.drop 21).take 6)
  { surname := surname, name := nm, number := "N" ++ number, nationality := "KAZ",
    birthDate := formatMRZDate birthDateRaw, validDate := formatMRZDate validDateRaw,
    gender := gender }

/-- Source `parseTD3(line1, line2)`: fixed-column decode of the passport layout. -/
def parseTD3 (line1 line2 : List Char) : MRZResult :=
  let nameMatch := findNameMatch (line1.drop 5)
  let surname := match nameMatch with
    | some (g1, _) => String.mk (g1.filter (fun c => !(c == '<')))
    | none => ""
  let nm := match nameMatch with
    | some (_, g2) => String.mk (jsTrim (collapseFiller g2))
    | none => ""
  let number := String.mk (stripTrailingLt (line2.take 9))
  let nationality := String.mk ((line2.drop 10).take 3)
  let birthDateRaw := String.mk ((line2.drop 13).take 6)
  let gender := if (line2.drop 20).take 1 = ['M'] then "1" else "0"
  let validDateRaw := String.mk ((line2.drop 21).take 6)
  { surname := surname, name := nm, number := "N" ++ number, nationality := nationality,
    birthDate := formatMRZDate birthDateRaw, validDate := formatMRZDate validDateRaw,
    gender := gender }

/-- The candidate MRZ lines of `parseMRZ`:
`text.split('\n').map(l => l.trim()).filter(l => l.length > 30)`. -/
def mrzCandidates (text : String) : List String :=
  ((splitChar '\n' text.data).map (fun l => String.mk (jsTrim l))).filter
    (fun l => 30 < l.length)

/-- The adjacent-pair loop of `parseMRZ`: first classified pair wins. -/
def scanPairs : List String → Option MRZResult
  | l1 :: l2 :: rest =>
    if 30 ≤ l1.length && 28 ≤ l2.length then
      if "I<KAZ".data.isPrefixOf l1.data || "ID".data.isPrefixOf l1.data then
        some (parseTD1 l1.data l2.data)
      else if "P<".data.isPrefixOf l1.data then some (parseTD3 l1.data l2.data)
      else scanPairs (l2 :: rest)
    else scanPairs (l2 :: rest)
  | _ => none

/-- Source `parseMRZ(text)`: fixed-layout pair scan, then the loose name fallback. -/
def parseMRZ (text : String) : Option MRZResult :=
  match scanPairs (mrzCandidates text) with
  | some r => some r
  | none =>
    match findLoose text.data with
    | some (g1, g2) =>
      some { surname := String.mk g1, name := String.mk (jsTrim (collapseFiller g2)),
             number := "", nationality := "", birthDate := "", validDate := "",
             gender := "" }
    | none => none

/-! Section: Heuristic field scanners -/

structure DatesTriple where
  birthDate : String
  issueDate : String
  validDate : String
deriving Repr, DecidableEq

/-- The sort key of `parseDates`: `parseInt(d.split('.')[2])`. -/
def getYear (d : List Char) : Nat :=
  (jsParseIntNat ((splitChar '.' d).getD 2 [])).getD 0

/-- Stable insertion used to model the (stable) `Array.prototype.sort` with
comparator `getYear(a) - getYear(b)`: a new element goes after all existing
elements with a key less than or equal to its own. -/
def insertByYear (d : List Char) : List (List Char) → List (List Char)
  | [] => [d]
  | e :: es => if getYear d < getYear e then d :: e :: es else e :: insertByYear d es

/-- Stable ascending sort by `getYear`. -/
def sortByYear (l : List (List Char)) : List (List Char) :=
  l.foldl (fun acc d => insertByYear d acc) []

/-- Source `parseDates(text)`: all `DD.MM.YYYY` matches; with at least three, the
earliest three by year become birth, issue and expiry dates. -/
def parseDates (text : String) : DatesTriple :=
  let dates := scanDates text.data
  if 3 ≤ dates.length then
    let sorted := sortByYear dates
    { birthDate := String.mk (sorted.getD 0 []),
      issueDate := String.mk (sorted.getD 1 []),
      validDate := String.mk (sorted.getD 2 []) }
  else { birthDate := "", issueDate := "", validDate := "" }

/-- Source `parsePassportNumber(text)`. -/
def parsePassportNumber (text : String) : String :=
  match findPassportNum text.data with
  | some ds => "N" ++ String.mk ds
  | none => ""

/-- Source `parseIIN(text)`. -/
def parseIIN (text : String) : String :=
  match findIIN false text.data with
  | some l => String.mk l
  | none => ""

/-- Source `parseGender(text)`. -/
def parseGender (text : String) : String :=
  if hasWordToken 'F' false text.data || jsIncludes "Ж/F".data text.data ||
     jsIncludes "ЖЕН".data text.data then "0"
  else if hasWordToken 'M' false text.data || jsIncludes "М/M".data text.data ||
     jsIncludes "МУЖ".data text.data then "1"
  else ""

/-- Source `parseAuthority(text)`. -/
def parseAuthority (text : String) : String :=
  if jsIncludes "MINISTRY OF INTERNAL AFFAIRS".data text.data then
    "MINISTRY OF INTERNAL AFFAIRS"
  else if jsIncludes "MIA OF KAZAKHSTAN".data text.data then "MIA OF KAZAKHSTAN"
  else "MIA OF KAZAKHSTAN"

def BLACKLIST_WORDS : List String :=
  ["PASSPORT", "CODE", "STATE", "KAZ", "SURNAME", "GIVEN", "NAMES",
   "NATIONALITY", "DATE", "BIRTH", "SEX", "PLACE", "ISSUE", "EXPIRY",
   "AUTHORITY", "MINISTRY", "INTERNAL", "AFFAIRS", "REPUBLIC", "KAZAKHSTAN",
   "ID", "MRZ", "DOCUMENT", "TYPE", "OF", "THE"]

/-! Section: The assembled record and `parse` -/

structure PassportData where
  number : String
  surname : String
  name : String
  birthDate : String
  issueDate : String
  validDate : String
  iin : String
  authority : String
  gender : String
  pserie : String
  nationality : String
  isValid : Bool
  errors : List String
  warnings : List String
deriving Repr, DecidableEq

/-- Final assembly of the record by `parse`: `isValid` starts `true` and is
set to `false` by each of the two hard-error branches, which also push their
error string (number error first, birth-date error last). -/
def mkRecord (number surname nm birthDate issueDate validDate iin authority gender
    nationality : String) (ws : List String) : PassportData :=
  { number := number, surname := surname, name := nm, birthDate := birthDate,
    issueDate := issueDate, validDate := validDate, iin := iin, authority := authority,
    gender := gender, pserie := "", nationality := nationality,
    isValid := if number = "" then false else if birthDate = "" then false else true,
    errors := (if number = "" then ["Passport number not found"] else []) ++
              (if birthDate = "" then ["Birth date not found"] else []),
    warnings := ws }

/-- Source `parse(text)`: the full pipeline, with each mutation of the working
record expressed as a new let binding in program order. -/
def parse (text : String) : PassportData :=
  let mrzOpt := parseMRZ text
  let surname1 := match mrzOpt with
    | some m => if m.surname = "" then "" else m.surname
    | none => ""
  let name1 := match mrzOpt with
    | some m => if m.name = "" then "" else m.name
    | none => ""
  let number1 := match mrzOpt with
    | some m => if m.number = "" then "" else m.number
    | none => ""
  let nationality1 := match mrzOpt with
    | some m => if m.nationality = "" then "KAZ" else m.nationality
    | none => "KAZ"
  let birth1 := match mrzOpt with
    | some m => if m.birthDate = "" then "" else m.birthDate
    | none => ""
  let valid1 := match mrzOpt with
    | some m => if m.validDate = "" then "" else m.validDate
    | none => ""
  let gender1 := match mrzOpt with
    | some m => if m.gender = "" then "" else m.gender
    | none => ""
  let nameStep : String × String × List String :=
    if surname1 = "" ∨ name1 = "" then
      let filtered := ((scanWords text.data).map String.mk).filter
        (fun w => !(BLACKLIST_WORDS.contains w) && decide (2 < w.length))
      let s2 := if surname1 = "" ∧ 0 < filtered.length then filtered.getD 0 "" else surname1
      let n2 := if name1 = "" ∧ 1 < filtered.length then filtered.getD 1 "" else name1
      (s2, n2, (if s2 = "" then ["Surname not found"] else []) ++
               (if n2 = "" then ["Given name not found"] else []))
    else (surname1, name1, [])
  let surname2 := nameStep.1
  let name2 := nameStep.2.1
  let nameWarns := nameStep.2.2
  let number2 := if number1 = "" then parsePassportNumber text else number1
  let iin := parseIIN text
  let iinWarns :=
    if iin = "" then ["IIN not found"]
    else if validateIIN iin then [] else ["IIN checksum validation failed"]
  let iinInfo := if iin = "" then none else extractFromIIN iin
  let birth2 := match iinInfo with
    | some d => if birth1 = "" then d.birthDate else birth1
    | none => birth1
  let gender2 := match iinInfo with
    | some d => if gender1 = "" then d.gender else gender1
    | none => gender1
  let textDates := parseDates text
  let birth3 := if birth2 = "" then textDates.birthDate else birth2
  let issue2 := textDates.issueDate
  let valid2 := if valid1 = "" then textDates.validDate else valid1
  let gender3 := if gender2 = "" then parseGender text else gender2
  let authority := parseAuthority text
  mkRecord number2 surname2 name2 birth3 issue2 valid2 iin authority gender3 nationality1
    (nameWarns ++ iinWarns)

/-- The birth date contributed by the MRZ stage of `parse` (empty when the
MRZ decoder returned nothing or an empty field). -/
def mrzBirthDate (text : String) : String :=
  match parseMRZ text with
  | some m => if m.birthDate = "" then "" else m.birthDate
  | none => ""

/-- The gender contributed by the MRZ stage of `parse`. -/
def mrzGender (text : String) : String :=
  match parseMRZ text with
  | some m => if m.gender = "" then "" else m.gender
  | none => ""

/-! Section: Specification-side definitions (from the claim texts) -/

/-- Modelled from the spec wording of the checksum: first weighted sum of the
first 11 digits with `W1 = [1,...,11]`, check digit = sum mod 11; if that is
10, second weighted sum with `W2 = [3,...,11,1,2]`, check digit = second sum
mod 11. -/
def iinCheckDigitSpec (digits : List Nat) : Nat :=
  let w1 : List Nat := [1, 2, 3, 4, 5, 6, 7, 8, 9, 10, 11]
  let w2 : List Nat := [3, 4, 5, 6, 7, 8, 9, 10, 11, 1, 2]
  let s1 := (List.zipWith (· * ·) (digits.take 11) w1).sum
  let c1 := s1 % 11
  if c1 = 10 then (List.zipWith (· * ·) (digits.take 11) w2).sum % 11 else c1

/-! Section: Theorems -/

/-- C1: for every string of exactly 12 decimal digits, `validateIIN` returns
`true` iff the check digit of the two-stage weighted algorithm (weights
`W1 = [1..11]`, falling back to `W2 = [3..11,1,2]` when the first check
digit is 10) equals the 12th digit. -/
theorem validateIIN_iff_checkDigit (s : String) (hlen : s.length = 12)
    (hdig : s.data.all isDigitCh = true) :
    validateIIN s = true ↔
      iinCheckDigitSpec (s.data.map digitVal) = digitVal (s.data.getD 11 '0') := by
  have h1 : s.data.length = 12 := hlen
  unfold validateIIN iinCheckDigitSpec weightedSum
  rw [if_neg (by simp [h1]), if_neg (by simp [hdig])]
  simp only [← List.map_take, List.zipWith_map_left, weights1, weights2, beq_iff_eq]

/-- C1 witness: the canonical fixture `"920231350126"` satisfies the
hypotheses, and the equivalence holds there. -/
theorem validateIIN_iff_checkDigit_witness :
    ("920231350126" : String).length = 12 ∧
    ("920231350126" : String).data.all isDigitCh = true ∧
    (validateIIN "920231350126" = true ↔
      iinCheckDigitSpec (("920231350126" : String).data.map digitVal) =
        digitVal (("920231350126" : String).data.getD 11 '0')) :=
  ⟨by decide, by decide, validateIIN_iff_checkDigit "920231350126" (by decide) (by decide)⟩

/-- C6: `parse ""` yields an invalid record carrying exactly the two hard
errors, with every extractable field empty. -/
theorem parse_empty_string :
    parse "" =
      { number := "", surname := "", name := "", birthDate := "",
        issueDate := "", validDate := "", iin := "",
        authority := "MIA OF KAZAKHSTAN", gender := "", pserie := "",
        nationality := "KAZ", isValid := false,
        errors := ["Passport number not found", "Birth date not found"],
        warnings := ["Surname not found", "Given name not found", "IIN not found"] } := by
  decide

/-- C9: `parse` is a pure function of its input text: two calls on identical
input yield field-for-field identical records (the embedding threads no
state, so no call can mutate anything observable by a later call). -/
theorem parse_deterministic (t1 t2 : String) (h : t1 = t2) : parse t1 = parse t2 := by
  rw [h]

/-- C9 witness: the two hypotheses-discharged calls on the empty string. -/
theorem parse_deterministic_witness : parse "" = parse "" :=
  parse_deterministic "" "" rfl

/-- C2 counterexample: at the pivot value itself, `formatMRZDate "500115"`
yields the year 2050, not 1950 as the claim's `YY ≥ 50 → 1900s` rule says:
the code tests `year > 50`, not `year ≥ 50`. -/
theorem formatMRZDate_pivot_fifty_counterexample :
    formatMRZDate "500115" = "15.01.2050" ∧ ("15.01.2050" : String) ≠ "15.01.1950" := by
  exact ⟨by decide, by decide⟩

/-- A decimal digit character is not JS whitespace. -/
theorem digit_not_ws {c : Char} (h : isDigitCh c = true) : jsIsWS c = false := by
  simp only [isDigitCh, Bool.and_eq_true, decide_eq_true_eq] at h
  simp only [jsIsWS, Bool.or_eq_false_iff, beq_eq_false_iff_ne, ne_eq]
  refine ⟨⟨⟨⟨⟨⟨?_, ?_⟩, ?_⟩, ?_⟩, ?_⟩, ?_⟩, ?_⟩ <;> (rintro rfl; exact absurd h (by decide))

/-- C2 (amended): for every 6-digit string `YYMMDD`, `formatMRZDate` renders
`DD.MM.YYYY` where the full year is `2000 + YY` when `YY ≤ 50` and
`1900 + YY` when `YY > 50` (the code's pivot is `year > 50`, so 50 itself
falls in the 2000s; the spec's examples 05 → 2005 and 99 → 1999 still hold). -/
theorem formatMRZDate_pivot_amended (s : String) (h6 : s.length = 6)
    (hd : s.data.all isDigitCh = true) :
    formatMRZDate s =
      String.mk ((s.data.drop 4).take 2) ++ "." ++ String.mk ((s.data.drop 2).take 2) ++ "." ++
      toString
        (let yy := 10 * digitVal (s.data.getD 0 '0') + digitVal (s.data.getD 1 '0')
         if yy ≤ 50 then 2000 + yy else 1900 + yy) := by
  obtain ⟨l⟩ := s
  have h6' : l.length = 6 := h6
  match l, h6' with
  | [a, b, c, d, e, f], _ =>
    simp only [List.all_cons, List.all_nil, Bool.and_eq_true, Bool.and_true] at hd
    obtain ⟨ha, hb, -, -, -, -⟩ := hd
    have hwa : jsIsWS a = false := digit_not_ws ha
    show formatMRZDate ⟨[a, b, c, d, e, f]⟩ = _
    unfold formatMRZDate jsParseIntNat
    rw [if_neg (by simp)]
    simp only [List.take, List.drop, List.dropWhile, hwa, List.takeWhile, ha, hb]
    simp only [digitsToNat, List.foldl, List.isEmpty_cons, Bool.false_eq_true, if_false]
    have harith : (if 50 < 10 * digitVal a + digitVal b
        then 1900 + (10 * digitVal a + digitVal b)
        else 2000 + (10 * digitVal a + digitVal b)) =
        (if 10 * digitVal a + digitVal b ≤ 50
         then 2000 + (10 * digitVal a + digitVal b)
         else 1900 + (10 * digitVal a + digitVal b)) := by
      rcases le_or_lt (10 * digitVal a + digitVal b) 50 with h | h
      · rw [if_neg (by omega), if_pos h]
      · rw [if_pos h, if_neg (by omega)]
    simp only [List.getD, List.get?, Option.getD_some]
    rw [show 10 * 0 + digitVal a = digitVal a from by omega] at *
    simp [harith]

/-- C2 amended witness: the fixture `"050115"` satisfies the hypotheses and
maps to `"15.01.2005"`. -/
theorem formatMRZDate_pivot_amended_witness :
    ("050115" : String).length = 6 ∧ ("050115" : String).data.all isDigitCh = true ∧
    formatMRZDate "050115" =
      String.mk ((("050115" : String).data.drop 4).take 2) ++ "." ++
      String.mk ((("050115" : String).data.drop 2).take 2) ++ "." ++
      toString
        (let yy := 10 * digitVal (("050115" : String).data.getD 0 '0') +
            digitVal (("050115" : String).data.getD 1 '0')
         if yy ≤ 50 then 2000 + yy else 1900 + yy) :=
  ⟨by decide, by decide, formatMRZDate_pivot_amended "050115" (by decide) (by decide)⟩

/-- C3: a pair of syntactically valid 30-character TD1 MRZ lines (trimmed
length exactly 30) is dropped by the candidate filter, which keeps only
lines of trimmed length strictly greater than 30; consequently no
fixed-column pair decode happens and only the loose name fallback fires
(empty positional fields).  This exhibits the divergence from the spec's
"trimmed length ≥ 30" rule on a concrete input. -/
theorem mrz_thirty_char_line_discarded :
    (jsTrim ("I<KAZABCDEFGH<<IJKLM<<<<<<<<<<" : String).data).length = 30 ∧
    mrzCandidates "I<KAZABCDEFGH<<IJKLM<<<<<<<<<<\nN12345678<KAZ900101M250101<<<<" = [] ∧
    parseMRZ "I<KAZABCDEFGH<<IJKLM<<<<<<<<<<\nN12345678<KAZ900101M250101<<<<" =
      some { surname := "KAZABCDEFGH", name := "IJKLM", number := "", nationality := "",
             birthDate := "", validDate := "", gender := "" } := by
  refine ⟨by decide, by decide, by decide⟩

/-- C8: for every string that is not exactly 12 characters long or contains
a non-digit character, `validateIIN` returns `false` and `extractFromIIN`
returns `none` (no derivation is attempted). -/
theorem validateIIN_malformed_input (s : String)
    (h : s.length ≠ 12 ∨ ∃ c ∈ s.data, isDigitCh c = false) :
    validateIIN s = false ∧ extractFromIIN s = none := by
  have hv : validateIIN s = false := by
    unfold validateIIN
    by_cases hlen : s.data.length = 12
    · rw [if_neg (by simp [hlen])]
      rcases h with h | ⟨c, hc, hcd⟩
      · exact absurd hlen h
      · rw [if_pos]
        simp only [Bool.not_eq_true']
        rw [Bool.eq_false_iff]
        intro hall
        rw [List.all_eq_true] at hall
        exact absurd (hall c hc) (by simp [hcd])
    · rw [if_pos hlen]
  exact ⟨hv, by unfold extractFromIIN; rw [if_pos (by simp [hv])]⟩

/-- C8 witness: the 5-character string `"12345"` satisfies the hypothesis
and both conclusions. -/
theorem validateIIN_malformed_input_witness :
    (("12345" : String).length ≠ 12 ∨ ∃ c ∈ ("12345" : String).data, isDigitCh c = false) ∧
    validateIIN "12345" = false ∧ extractFromIIN "12345" = none :=
  ⟨Or.inl (by decide), validateIIN_malformed_input "12345" (Or.inl (by decide))⟩

/-- C4: on every IIN accepted by the checksum, `extractFromIIN` maps the
7th digit (century digit) `1, 2 → "18"`, `3, 4 → "19"`, `5, 6 → "20"`, and
returns `none` for every other value; on success the birth date is
`digits[4:6].digits[2:4].(prefix ++ digits[0:2])` and the gender is `"1"`
for an odd century digit and `"0"` for an even one. -/
theorem extractFromIIN_century_map (s : String) (hv : validateIIN s = true) :
    extractFromIIN s =
      (let c := digitVal (s.data.getD 6 '0')
       if c = 1 ∨ c = 2 ∨ c = 3 ∨ c = 4 ∨ c = 5 ∨ c = 6 then
         some { gender := if c % 2 = 1 then "1" else "0",
                birthDate := String.mk ((s.data.drop 4).take 2) ++ "." ++
                  String.mk ((s.data.drop 2).take 2) ++ "." ++
                  ((if c ≤ 2 then "18" else if c ≤ 4 then "19" else "20") ++
                   String.mk (s.data.take 2)) }
       else none) := by
  unfold extractFromIIN
  rw [if_neg (by simp [hv])]
  simp only []
  generalize digitVal (s.data.getD 6 '0') = c
  by_cases h1 : c = 1
  · subst h1; simp
  by_cases h2 : c = 2
  · subst h2; simp
  by_cases h3 : c = 3
  · subst h3; simp
  by_cases h4 : c = 4
  · subst h4; simp
  by_cases h5 : c = 5
  · subst h5; simp
  by_cases h6 : c = 6
  · subst h6; simp
  simp [h1, h2, h3, h4, h5, h6]

/-- C4 witness: `"030101500007"` passes the checksum, has century digit 5,
and derives gender `"1"` and birth date `"01.01.2003"`. -/
theorem extractFromIIN_century_map_witness :
    validateIIN "030101500007" = true ∧
    extractFromIIN "030101500007" = some { gender := "1", birthDate := "01.01.2003" } := by
  refine ⟨by decide, ?_⟩
  rw [extractFromIIN_century_map "030101500007" (by decide)]
  decide

/-- Helper for C5: the final assembly satisfies the validity/errors
invariant for every combination of field values. -/
theorem mkRecord_invariant (number surname nm birthDate issueDate validDate iin authority
    gender nationality : String) (ws : List String) :
    ((mkRecord number surname nm birthDate issueDate validDate iin authority gender
        nationality ws).isValid = false ↔
      (mkRecord number surname nm birthDate issueDate validDate iin authority gender
        nationality ws).errors ≠ []) ∧
    (mkRecord number surname nm birthDate issueDate validDate iin authority gender
        nationality ws).errors ⊆
      ["Passport number not found", "Birth date not found"] := by
  unfold mkRecord
  by_cases hn : number = "" <;> by_cases hb : birthDate = "" <;>
    simp [hn, hb, List.subset_def]

/-- C5: every record returned by `parse` has `isValid = false` exactly when
its `errors` list is non-empty, and the only possible entries of `errors`
are the two hard errors (document number not found, birth date not found). -/
theorem parse_isValid_iff_errors (text : String) :
    ((parse text).isValid = false ↔ (parse text).errors ≠ []) ∧
    (parse text).errors ⊆ ["Passport number not found", "Birth date not found"] := by
  unfold parse
  exact mkRecord_invariant _ _ _ _ _ _ _ _ _ _ _

/-- C5 witness: the invariant instantiated at the empty document text. -/
theorem parse_isValid_iff_errors_witness :
    (((parse "").isValid = false ↔ (parse "").errors ≠ []) ∧
      (parse "").errors ⊆ ["Passport number not found", "Birth date not found"]) :=
  parse_isValid_iff_errors ""

/-- C7: whenever MRZ decoding contributes a non-empty birth date, the record
returned by `parse` carries exactly that date: neither the ID-number
derivation nor the date-triple fallback overwrites it. -/
theorem mrz_birthDate_precedence (text : String) (m : MRZResult)
    (hm : parseMRZ text = some m) (hb : m.birthDate ≠ "") :
    (parse text).birthDate = m.birthDate := by
  unfold parse mkRecord
  rw [hm]
  simp [hb]
  cases (if parseIIN text = "" then none else extractFromIIN (parseIIN text)) <;> simp [hb]

set_option maxRecDepth 16000 in
/-- C7 witness: a text holding a decodable passport-layout MRZ pair and
three free-text `DD.MM.YYYY` dates; the MRZ birth date wins. -/
theorem mrz_birthDate_precedence_witness :
    parseMRZ "P<KAZSMITH<<JOHN<<<<<<<<<<<<<<<<<<<<<<<<<<<<\nN123456789KAZ9001013M2501017<<<<<<<<<<<<<<<<\n01.01.1800 02.02.1801 03.03.1802" =
      some { surname := "SMITH", name := "JOHN", number := "NN12345678", nationality := "KAZ",
             birthDate := "01.01.1990", validDate := "01.01.2025", gender := "1" } ∧
    ({ surname := "SMITH", name := "JOHN", number := "NN12345678", nationality := "KAZ",
       birthDate := "01.01.1990", validDate := "01.01.2025", gender := "1" } : MRZResult).birthDate ≠ "" ∧
    (parse "P<KAZSMITH<<JOHN<<<<<<<<<<<<<<<<<<<<<<<<<<<<\nN123456789KAZ9001013M2501017<<<<<<<<<<<<<<<<\n01.01.1800 02.02.1801 03.03.1802").birthDate =
      ({ surname := "SMITH", name := "JOHN", number := "NN12345678", nationality := "KAZ",
         birthDate := "01.01.1990", validDate := "01.01.2025", gender := "1" } : MRZResult).birthDate :=
  ⟨by decide, by decide,
    mrz_birthDate_precedence
      "P<KAZSMITH<<JOHN<<<<<<<<<<<<<<<<<<<<<<<<<<<<\nN123456789KAZ9001013M2501017<<<<<<<<<<<<<<<<\n01.01.1800 02.02.1801 03.03.1802"
      { surname := "SMITH", name := "JOHN", number := "NN12345678", nationality := "KAZ",
        birthDate := "01.01.1990", validDate := "01.01.2025", gender := "1" }
      (by decide) (by decide)⟩

/-- C10: whenever the text yields a national ID that fails the checksum,
no derivation happens (`extractFromIIN` is `none`), the checksum warning is
recorded, and the final birth date and gender come only from the MRZ stage
or the later fallbacks — the ID never fills them. -/
theorem invalid_iin_no_derivation (text : String)
    (h1 : parseIIN text ≠ "") (h2 : validateIIN (parseIIN text) = false) :
    extractFromIIN (parseIIN text) = none ∧
    "IIN checksum validation failed" ∈ (parse text).warnings ∧
    (parse text).birthDate =
      (if mrzBirthDate text = "" then (parseDates text).birthDate else mrzBirthDate text) ∧
    (parse text).gender =
      (if mrzGender text = "" then parseGender text else mrzGender text) := by
  have hx : extractFromIIN (parseIIN text) = none := by
    unfold extractFromIIN
    rw [if_pos (by simp [h2])]
  refine ⟨hx, ?_, ?_, ?_⟩
  · unfold parse mkRecord
    simp [h1, h2]
  · unfold parse mkRecord mrzBirthDate
    cases hmz : parseMRZ text with
    | none => simp [hmz, h1, hx]
    | some m => by_cases hmb : m.birthDate = "" <;> simp [hmz, h1, hx, hmb]
  · unfold parse mkRecord mrzGender
    cases hmz : parseMRZ text with
    | none => simp [hmz, h1, hx]
    | some m => by_cases hmg : m.gender = "" <;> simp [hmz, h1, hx, hmg]

set_option maxRecDepth 8000 in
/-- C10 witness: the text `"123456789012"` contains a 12-digit ID failing
the checksum; nothing fills birth date or gender. -/
theorem invalid_iin_no_derivation_witness :
    parseIIN "123456789012" ≠ "" ∧ validateIIN (parseIIN "123456789012") = false ∧
    (extractFromIIN (parseIIN "123456789012") = none ∧
     "IIN checksum validation failed" ∈ (parse "123456789012").warnings ∧
     (parse "123456789012").birthDate =
       (if mrzBirthDate "123456789012" = "" then (parseDates "123456789012").birthDate
        else mrzBirthDate "123456789012") ∧
     (parse "123456789012").gender =
       (if mrzGender "123456789012" = "" then parseGender "123456789012"
        else mrzGender "123456789012")) :=
  ⟨by decide, by decide, invalid_iin_no_derivation "123456789012" (by decide) (by decide)⟩
